import Mathlib

/-!
Shallow embedding of the `ThermalPrinter` driver (adathermal.py) and proofs
about the claims on its write pipeline, timing gate, barcode and bitmap
subprotocols.

Modelling conventions:
* Machine time is modelled by `ℚ`.  Every operation takes the wall-clock
  time `t` at which it is invoked; the wall clock advances only inside
  `timeout_wait` (the busy-wait gate) and inside explicit `time.sleep`
  calls, matching the source's use of `time.time()`.
* Characters and bytes are modelled as `Nat` code points / byte values.
* Each operation returns an `Eff`: the new printer state, the wall-clock
  time when the operation returns, the list of bytes handed to the
  transport, and the list of durations passed to `timeout_set` (the
  scheduled busy times), in order.
-/

/-- The mutable attributes of the `ThermalPrinter` class
    (adathermal.py lines 9-22). -/
structure PrinterState where
  resume_time : ℚ
  byte_time : ℚ
  dot_print_time : ℚ
  dot_feed_time : ℚ
  prev_byte : Nat
  column : Nat
  max_column : Nat
  char_height : Nat
  line_spacing : Nat
  barcode_height : Nat
  print_mode : Nat
  firmware_version : Nat
  write_to_stdout : Bool
deriving Repr, DecidableEq

/-- Result of running one driver operation: final state, wall-clock time on
    return, bytes emitted to the transport, and the durations passed to
    `timeout_set` in order. -/
structure Eff where
  st : PrinterState
  now : ℚ
  out : List Nat
  sched : List ℚ
deriving Repr, DecidableEq

/-- The newline byte, Python `'\n'`. -/
def newline : Nat := 10

/-- `timeout_set(x)` (line 121): `resume_time = time.time() + x`,
    invoked at wall-clock time `t`. -/
def timeout_set (s : PrinterState) (t x : ℚ) : PrinterState :=
  { s with resume_time := t + x }

/-- `timeout_wait()` (line 125): in serial mode busy-waits until the wall
    clock reaches `resume_time`; returns the wall-clock time afterwards.
    A no-op when writing to stdout. -/
def timeout_wait (s : PrinterState) (t : ℚ) : ℚ :=
  if s.write_to_stdout then t else max t s.resume_time

/-- `write_bytes(*args)` (line 147): in stdout mode print the values; in
    serial mode wait, schedule `len(args) * byte_time`, then transmit the
    bytes. -/
def write_bytes (s : PrinterState) (t : ℚ) (args : List Nat) : Eff :=
  if s.write_to_stdout then
    ⟨s, t, args, []⟩
  else
    let t1 := timeout_wait s t
    let d := (args.length : ℚ) * s.byte_time
    ⟨timeout_set s t1 d, t1, args, [d]⟩

/-- `c.encode('cp437', 'ignore')` (line 166).  CP437 agrees with ASCII below
    code point 128.  Code points at or above 128 go through the CP437
    high-half table when present and are dropped otherwise; the claims below
    only inspect transmitted bytes for ASCII inputs, so the high-half table
    is not reproduced and those code points are modelled as dropped. -/
def cp437_encode (c : Nat) : List Nat :=
  if c < 128 then [c] else []

/-- One iteration of the loop body of `write(data)` (lines 158-189) for a
    single character `c`, at wall-clock time `t`. -/
def write_char (s : PrinterState) (t : ℚ) (c : Nat) : Eff :=
  if s.write_to_stdout then
    -- `sys.stdout.write(str(c)); continue` -- before the 0x13 filter
    ⟨s, t, [c], []⟩
  else if c = 0x13 then
    ⟨s, t, [], []⟩
  else
    let t1 := timeout_wait s t
    let out := cp437_encode c
    if c = newline ∨ s.column = s.max_column then
      if s.prev_byte = newline then
        -- Feed line (blank): column is not reset and `c` is not replaced
        -- by a newline in this branch of the source
        let d := s.byte_time +
          ((s.char_height : ℚ) + (s.line_spacing : ℚ)) * s.dot_feed_time
        ⟨{ timeout_set s t1 d with prev_byte := c }, t1, out, [d]⟩
      else
        -- Text line: reset column, treat wrap as newline on next pass
        let d := s.byte_time + (s.char_height : ℚ) * s.dot_print_time +
          (s.line_spacing : ℚ) * s.dot_feed_time
        ⟨{ timeout_set { s with column := 0 } t1 d with prev_byte := newline },
          t1, out, [d]⟩
    else
      let d := s.byte_time
      ⟨{ timeout_set { s with column := s.column + 1 } t1 d with prev_byte := c },
        t1, out, [d]⟩

/-- `write(data)` (lines 158-189): the per-character loop over `data`. -/
def write (s : PrinterState) (t : ℚ) (data : List Nat) : Eff :=
  match data with
  | [] => ⟨s, t, [], []⟩
  | c :: rest =>
    let e1 := write_char s t c
    let e2 := write e1.st e1.now rest
    ⟨e2.st, e2.now, e1.out ++ e2.out, e1.sched ++ e2.sched⟩

/-- A printer state with the class-attribute defaults of lines 9-22 and all
    timing parameters zero (used for concrete evaluations). -/
def initState : PrinterState :=
  { resume_time := 0
    byte_time := 0
    dot_print_time := 0
    dot_feed_time := 0
    prev_byte := newline
    column := 0
    max_column := 32
    char_height := 24
    line_spacing := 8
    barcode_height := 50
    print_mode := 0
    firmware_version := 268
    write_to_stdout := false }

/-- `reset()` (lines 202-214). -/
def reset (s : PrinterState) (t : ℚ) : Eff :=
  let e1 := write_bytes s t [27, 64]
  let s2 := { e1.st with
    prev_byte := newline
    column := 0
    max_column := 32
    char_height := 24
    line_spacing := 6
    barcode_height := 50 }
  if 264 ≤ s2.firmware_version then
    let e3 := write_bytes s2 e1.now [27, 68]
    let e4 := write_bytes e3.st e3.now [4, 8, 12, 16]
    let e5 := write_bytes e4.st e4.now [20, 24, 28, 0]
    ⟨e5.st, e5.now, e1.out ++ e3.out ++ e4.out ++ e5.out,
      e1.sched ++ e3.sched ++ e4.sched ++ e5.sched⟩
  else
    ⟨s2, e1.now, e1.out, e1.sched⟩

/-- `set_size(value)` (lines 444-460).  The source's final statement
    `prevByte = '\n'` (line 460) assigns to a local variable that is never
    stored back into the instance, so the printer state's `prev_byte` is
    left unchanged here. -/
def set_size (s : PrinterState) (t : ℚ) (value : Char) : Eff :=
  let c := value.toUpper
  let size : Nat := if c = 'L' then 0x11 else if c = 'M' then 0x01 else 0x00
  let ch : Nat := if c = 'L' then 48 else if c = 'M' then 48 else 24
  let mc : Nat := if c = 'L' then 16 else 32
  write_bytes { s with char_height := ch, max_column := mc } t [29, 33, size]

/-- `feed(x)` (lines 420-432). -/
def feed (s : PrinterState) (t : ℚ) (x : Nat) : Eff :=
  if 264 ≤ s.firmware_version then
    let e1 := write_bytes s t [27, 100, x]
    let s2 := timeout_set e1.st e1.now (e1.st.dot_feed_time * (e1.st.char_height : ℚ))
    ⟨{ s2 with prev_byte := newline, column := 0 }, e1.now, e1.out,
      e1.sched ++ [e1.st.dot_feed_time * (e1.st.char_height : ℚ)]⟩
  else
    write s t (List.replicate x newline)

/-- `feed_rows(rows)` (lines 435-439). -/
def feed_rows (s : PrinterState) (t : ℚ) (rows : Nat) : Eff :=
  let e1 := write_bytes s t [27, 74, rows]
  let s2 := timeout_set e1.st e1.now ((rows : ℚ) * e1.st.dot_feed_time)
  ⟨{ s2 with prev_byte := newline, column := 0 }, e1.now, e1.out,
    e1.sched ++ [(rows : ℚ) * e1.st.dot_feed_time]⟩

/-! Barcode symbology constants (lines 245-257). -/

def UPC_A : Nat := 0
def UPC_E : Nat := 1
def EAN13 : Nat := 2
def EAN8 : Nat := 3
def CODE39 : Nat := 4
def I25 : Nat := 5
def CODEBAR : Nat := 6
def CODE93 : Nat := 7
def CODE128 : Nat := 8
def CODE11 : Nat := 9
def MSI : Nat := 10
def ITF : Nat := 11
def CODABAR : Nat := 12

/-- `new_dict` in `print_barcode` (lines 261-275): UPC codes and values for
    `firmware_version >= 264`; `-1` marks a symbology absent from this
    firmware family. -/
def new_dict (ty : Nat) : Int :=
  if ty = UPC_A then 65
  else if ty = UPC_E then 66
  else if ty = EAN13 then 67
  else if ty = EAN8 then 68
  else if ty = CODE39 then 69
  else if ty = ITF then 70
  else if ty = CODABAR then 71
  else if ty = CODE93 then 72
  else if ty = CODE128 then 73
  else -1  -- I25, CODEBAR, CODE11, MSI: not in new firmware

/-- `old_dict` in `print_barcode` (lines 276-290): UPC codes and values for
    `firmware_version < 264`. -/
def old_dict (ty : Nat) : Int :=
  if ty = UPC_A then 0
  else if ty = UPC_E then 1
  else if ty = EAN13 then 2
  else if ty = EAN8 then 3
  else if ty = CODE39 then 4
  else if ty = I25 then 5
  else if ty = CODEBAR then 6
  else if ty = CODE93 then 7
  else if ty = CODE128 then 8
  else if ty = CODE11 then 9
  else if ty = MSI then 10
  else -1  -- ITF, CODABAR: not in old firmware

/-- One code point of `text.encode("utf-8", "ignore")` (line 324). -/
def utf8_encode_char (c : Nat) : List Nat :=
  if c < 0x80 then [c]
  else if c < 0x800 then
    [0xC0 ||| (c >>> 6), 0x80 ||| (c &&& 0x3F)]
  else if c < 0x10000 then
    [0xE0 ||| (c >>> 12), 0x80 ||| ((c >>> 6) &&& 0x3F), 0x80 ||| (c &&& 0x3F)]
  else
    [0xF0 ||| (c >>> 18), 0x80 ||| ((c >>> 12) &&& 0x3F),
      0x80 ||| ((c >>> 6) &&& 0x3F), 0x80 ||| (c &&& 0x3F)]

/-- `text.encode("utf-8", "ignore")` (line 324): UTF-8 encodes every code
    point, so the handler drops nothing; no NUL terminator is appended by
    the source. -/
def utf8_encode (text : List Nat) : List Nat :=
  text.flatMap utf8_encode_char

/-- `print_barcode(text, type)` (lines 259-325).  The text payload is a list
    of code points.  On the new-firmware path the source hands the length
    `n` and the individual characters straight to the transport write. -/
def print_barcode (s : PrinterState) (t : ℚ) (text : List Nat) (ty : Nat) : Eff :=
  let n : Int := if 264 ≤ s.firmware_version then new_dict ty else old_dict ty
  if n = -1 then
    ⟨s, t, [], []⟩
  else
    let e1 := feed s t 1
    let e2 := write_bytes e1.st e1.now
      [29, 72, 2,   -- Print label below barcode
       29, 119, 3,  -- Barcode width
       29, 107, n.toNat]  -- Barcode type
    let t3 := timeout_wait e2.st e2.now
    let s3 := timeout_set e2.st t3
      (((e2.st.barcode_height : ℚ) + 40) * e2.st.dot_print_time)
    let textOut : List Nat :=
      if 264 ≤ s3.firmware_version then
        -- Recent firmware: write length byte + string sans NUL
        let m := min text.length 255
        m :: text.take m
      else
        -- Older firmware: the source writes `text.encode("utf-8","ignore")`
        -- and nothing else (its comment claims a NUL is appended)
        utf8_encode text
    ⟨{ s3 with prev_byte := newline }, t3, e1.out ++ e2.out ++ textOut,
      e1.sched ++ e2.sched ++
        [((e2.st.barcode_height : ℚ) + 40) * e2.st.dot_print_time]⟩

/-- The two inner loops of one chunk of `print_bitmap` (lines 501-509):
    emit `row_bytes_clipped` bytes starting at stream position `i`, then
    skip `row_bytes - row_bytes_clipped` bytes, for each of the given
    number of rows. -/
def chunk_rows (bitmap : Nat → Nat) (row_bytes row_bytes_clipped : Nat) :
    Nat → Nat → List Nat
  | _, 0 => []
  | i, y + 1 =>
    (List.range row_bytes_clipped).map (fun x => bitmap (i + x)) ++
      chunk_rows bitmap row_bytes row_bytes_clipped
        (i + row_bytes_clipped + (row_bytes - row_bytes_clipped)) y

/-- `range(0, h, max_chunk_height)` (line 493). -/
def pyRange (h step : Nat) : List Nat :=
  List.range' 0 ((h + step - 1) / step) step

/-- The chunk loop of `print_bitmap` (lines 493-510), iterating over the
    `rowStart` values with the stream position `i` threaded through. -/
def print_bitmap_go (bitmap : Nat → Nat)
    (row_bytes row_bytes_clipped max_chunk_height h : Nat) :
    List Nat → PrinterState → ℚ → Nat → Eff
  | [], s, t, _ => ⟨s, t, [], []⟩
  | rowStart :: rest, s, t, i =>
    let chunk_height :=
      if h - rowStart > max_chunk_height then max_chunk_height else h - rowStart
    -- Timeout wait happens here
    let e1 := write_bytes s t [18, 42, chunk_height, row_bytes_clipped]
    let data := chunk_rows bitmap row_bytes row_bytes_clipped i chunk_height
    let s2 := timeout_set e1.st e1.now ((chunk_height : ℚ) * e1.st.dot_print_time)
    let e2 := print_bitmap_go bitmap row_bytes row_bytes_clipped max_chunk_height h
      rest s2 e1.now
      (i + chunk_height * (row_bytes_clipped + (row_bytes - row_bytes_clipped)))
    ⟨e2.st, e2.now, e1.out ++ data ++ e2.out,
      e1.sched ++ [(chunk_height : ℚ) * e1.st.dot_print_time] ++ e2.sched⟩

/-- `print_bitmap(w, h, bitmap, laa_t)` (lines 474-512).  The bitmap buffer
    is modelled as a total function from stream position to byte value. -/
def print_bitmap (s : PrinterState) (t : ℚ) (w h : Nat) (bitmap : Nat → Nat)
    (laa_t : Bool) : Eff :=
  let row_bytes := (w + 7) / 8  -- Round up to next byte boundary
  let row_bytes_clipped := if row_bytes ≥ 48 then 48 else row_bytes
  let max_chunk_height := if laa_t then 1 else 255
  let e := print_bitmap_go bitmap row_bytes row_bytes_clipped max_chunk_height h
    (pyRange h max_chunk_height) s t 0
  ⟨{ e.st with prev_byte := newline }, e.now, e.out, e.sched⟩

/-! Print-mode masks (lines 329-334). -/

def INVERSE_MASK : Nat := 1 <<< 1
def UPDOWN_MASK : Nat := 1 <<< 2
def BOLD_MASK : Nat := 1 <<< 3
def DOUBLE_HEIGHT_MASK : Nat := 1 <<< 4
def DOUBLE_WIDTH_MASK : Nat := 1 <<< 5
def STRIKE_MASK : Nat := 1 <<< 6

/-- `write_print_mode()` (line 360). -/
def write_print_mode (s : PrinterState) (t : ℚ) : Eff :=
  write_bytes s t [27, 33, s.print_mode]

/-- Recompute `char_height` and `max_column` from the print-mode bitmask
    (the shared tail of lines 339-346 and 351-358). -/
def apply_print_mode_dims (s : PrinterState) : PrinterState :=
  let s1 := if s.print_mode &&& DOUBLE_HEIGHT_MASK ≠ 0 then
    { s with char_height := 48 } else { s with char_height := 24 }
  if s1.print_mode &&& DOUBLE_WIDTH_MASK ≠ 0 then
    { s1 with max_column := 16 } else { s1 with max_column := 32 }

/-- `set_print_mode(mask)` (lines 336-346). -/
def set_print_mode (s : PrinterState) (t : ℚ) (mask : Nat) : Eff :=
  let s1 := { s with print_mode := s.print_mode ||| mask }
  let e := write_print_mode s1 t
  ⟨apply_print_mode_dims e.st, e.now, e.out, e.sched⟩

/-- `unset_print_mode(mask)` (lines 348-358).  Python's
    `print_mode &= ~mask` clears the bits of `mask`; over `Nat` this is
    `print_mode - (print_mode &&& mask)`. -/
def unset_print_mode (s : PrinterState) (t : ℚ) (mask : Nat) : Eff :=
  let s1 := { s with print_mode := s.print_mode - (s.print_mode &&& mask) }
  let e := write_print_mode s1 t
  ⟨apply_print_mode_dims e.st, e.now, e.out, e.sched⟩

/-- `inverseOn()` (lines 367-371). -/
def inverseOn (s : PrinterState) (t : ℚ) : Eff :=
  if 268 ≤ s.firmware_version then write_bytes s t [29, 66, 1]
  else set_print_mode s t INVERSE_MASK

/-- `inverse_off()` (lines 373-377). -/
def inverse_off (s : PrinterState) (t : ℚ) : Eff :=
  if 268 ≤ s.firmware_version then write_bytes s t [29, 66, 0]
  else unset_print_mode s t INVERSE_MASK

/-- `justify(value)` (lines 409-417). -/
def justify (s : PrinterState) (t : ℚ) (value : Char) : Eff :=
  let c := value.toUpper
  let pos : Nat := if c = 'C' then 1 else if c = 'R' then 2 else 0
  write_bytes s t [0x1B, 0x61, pos]

/-- `underline_on(weight)` (lines 466-469). -/
def underline_on (s : PrinterState) (t : ℚ) (weight : Nat) : Eff :=
  let w := if weight > 2 then 2 else weight
  write_bytes s t [27, 45, w]

/-- `underline_off()` (lines 471-472). -/
def underline_off (s : PrinterState) (t : ℚ) : Eff :=
  write_bytes s t [27, 45, 0]

/-- `set_line_height(val)` (lines 594-603). -/
def set_line_height (s : PrinterState) (t : ℚ) (val : Nat) : Eff :=
  let v := if val < 24 then 24 else val
  write_bytes { s with line_spacing := v - 24 } t [27, 51, v]

/-- `set_barcode_height(val)` (lines 240-243). -/
def set_barcode_height (s : PrinterState) (t : ℚ) (val : Nat) : Eff :=
  let v := if val < 1 then 1 else val
  write_bytes { s with barcode_height := v } t [29, 104, v]

/-- `set_charset(val)` (lines 624-627). -/
def set_charset (s : PrinterState) (t : ℚ) (val : Nat) : Eff :=
  let v := if val > 15 then 15 else val
  write_bytes s t [27, 82, v]

/-- `set_code_page(val)` (lines 675-677). -/
def set_code_page (s : PrinterState) (t : ℚ) (val : Nat) : Eff :=
  let v := if val > 47 then 47 else val
  write_bytes s t [27, 116, v]

/-- `sleep_after(seconds)` (lines 564-568). -/
def sleep_after (s : PrinterState) (t : ℚ) (seconds : Nat) : Eff :=
  if 264 ≤ s.firmware_version then
    write_bytes s t [27, 56, seconds &&& 0xFF, seconds >>> 8]
  else
    write_bytes s t [27, 56, seconds]

/-- `sleep()` (lines 559-560). -/
def printer_sleep (s : PrinterState) (t : ℚ) : Eff :=
  sleep_after s t 1

/-- `offline()` (lines 551-552). -/
def offline (s : PrinterState) (t : ℚ) : Eff :=
  write_bytes s t [27, 61, 0]

/-- `online()` (lines 555-556). -/
def online (s : PrinterState) (t : ℚ) : Eff :=
  write_bytes s t [27, 61, 1]

/-- The `for i in range(10)` loop of `wake()` on old firmware
    (lines 577-579). -/
def wake_loop (s : PrinterState) (t : ℚ) : Nat → Eff
  | 0 => ⟨s, t, [], []⟩
  | n + 1 =>
    let e1 := write_bytes s t [27]
    let s2 := timeout_set e1.st e1.now (1 / 10)
    let e2 := wake_loop s2 e1.now n
    ⟨e2.st, e2.now, e1.out ++ e2.out, e1.sched ++ [(1 : ℚ) / 10] ++ e2.sched⟩

/-- `wake()` (lines 570-579).  `time.sleep(0.05)` advances the wall clock
    by 1/20 of a second. -/
def wake (s : PrinterState) (t : ℚ) : Eff :=
  let s0 := timeout_set s t 0
  let e1 := write_bytes s0 t [255]
  if 264 ≤ e1.st.firmware_version then
    let t2 := e1.now + 1 / 20  -- 50 ms
    let e2 := write_bytes e1.st t2 [27, 118, 0]  -- Sleep off (important!)
    ⟨e2.st, e2.now, e1.out ++ e2.out, [(0 : ℚ)] ++ e1.sched ++ e2.sched⟩
  else
    let e2 := wake_loop e1.st e1.now 10
    ⟨e2.st, e2.now, e1.out ++ e2.out, [(0 : ℚ)] ++ e1.sched ++ e2.sched⟩

/-- `has_paper()` (lines 584-592); `status` is the byte returned by the
    one-byte read. -/
def has_paper (s : PrinterState) (t : ℚ) (status : Nat) : Eff × Bool :=
  let e := if 264 ≤ s.firmware_version then write_bytes s t [27, 118, 0]
    else write_bytes s t [29, 114, 0]
  (e, status &&& 0b00000100 = 0)

/-- The public operation surface of the driver (spec §6), as invoked on a
    single instance.  `has_paper` carries the status byte its one-byte read
    returns. -/
inductive Op where
  | write (data : List Nat)
  | set_size (v : Char)
  | bold_on | bold_off
  | strike_on | strike_off
  | inverse_on | inverse_off
  | upside_down_on | upside_down_off
  | double_height_on | double_height_off
  | double_width_on | double_width_off
  | underline_on (w : Nat) | underline_off
  | justify (v : Char)
  | feed (n : Nat) | feed_rows (n : Nat)
  | set_line_height (v : Nat) | set_barcode_height (v : Nat)
  | print_barcode (text : List Nat) (ty : Nat)
  | print_bitmap (w h : Nat) (bitmap : Nat → Nat) (laa : Bool)
  | set_charset (v : Nat) | set_code_page (v : Nat)
  | sleep | sleep_after (n : Nat)
  | wake
  | online | offline
  | reset
  | has_paper (status : Nat)

/-- Whether an operation is the `wake()` call. -/
def Op.isWake : Op → Bool
  | Op.wake => true
  | _ => false

/-- Dispatch a public operation at wall-clock time `t`. -/
def runOp (op : Op) (s : PrinterState) (t : ℚ) : Eff :=
  match op with
  | Op.write data => write s t data
  | Op.set_size v => set_size s t v
  | Op.bold_on => set_print_mode s t BOLD_MASK
  | Op.bold_off => unset_print_mode s t BOLD_MASK
  | Op.strike_on => set_print_mode s t STRIKE_MASK
  | Op.strike_off => unset_print_mode s t STRIKE_MASK
  | Op.inverse_on => inverseOn s t
  | Op.inverse_off => inverse_off s t
  | Op.upside_down_on => set_print_mode s t UPDOWN_MASK
  | Op.upside_down_off => unset_print_mode s t UPDOWN_MASK
  | Op.double_height_on => set_print_mode s t DOUBLE_HEIGHT_MASK
  | Op.double_height_off => unset_print_mode s t DOUBLE_HEIGHT_MASK
  | Op.double_width_on => set_print_mode s t DOUBLE_WIDTH_MASK
  | Op.double_width_off => unset_print_mode s t DOUBLE_WIDTH_MASK
  | Op.underline_on w => underline_on s t w
  | Op.underline_off => underline_off s t
  | Op.justify v => justify s t v
  | Op.feed n => feed s t n
  | Op.feed_rows n => feed_rows s t n
  | Op.set_line_height v => set_line_height s t v
  | Op.set_barcode_height v => set_barcode_height s t v
  | Op.print_barcode text ty => print_barcode s t text ty
  | Op.print_bitmap w h bitmap laa => print_bitmap s t w h bitmap laa
  | Op.set_charset v => set_charset s t v
  | Op.set_code_page v => set_code_page s t v
  | Op.sleep => printer_sleep s t
  | Op.sleep_after n => sleep_after s t n
  | Op.wake => wake s t
  | Op.online => online s t
  | Op.offline => offline s t
  | Op.reset => reset s t
  | Op.has_paper status => (has_paper s t status).1

/-- Run a sequence of public operations, threading state and wall clock. -/
def runOps (ops : List Op) (s : PrinterState) (t : ℚ) : Eff :=
  match ops with
  | [] => ⟨s, t, [], []⟩
  | op :: rest =>
    let e1 := runOp op s t
    let e2 := runOps rest e1.st e1.now
    ⟨e2.st, e2.now, e1.out ++ e2.out, e1.sched ++ e2.sched⟩

/-- Modelled from the spec (claim C5's wording, §4.5): the transport bytes
    `print_bitmap` should emit.  Rows are sent in chunks of at most
    `maxChunkHeight` rows (1 when line-at-a-time, else 255), each chunk
    prefixed by `18 42 <chunkHeight> <clippedRowBytes>`; each row carries
    exactly `min (ceil (w/8)) 48` data bytes, the bytes of a wider source
    row beyond the 48th being skipped in the stream. -/
def bitmap_claim_out (bitmap : Nat → Nat) (w h : Nat) (laa : Bool) : List Nat :=
  let rowBytes := (w + 7) / 8
  let clipped := min rowBytes 48
  let mch := if laa then 1 else 255
  (pyRange h mch).flatMap fun rowStart =>
    let ch := min (h - rowStart) mch
    [18, 42, ch, clipped] ++
      (List.range ch).flatMap fun y =>
        (List.range clipped).map fun x => bitmap ((rowStart + y) * rowBytes + x)

/-- Modelled from the spec (claim C5): the busy times `print_bitmap` should
    schedule — per chunk, the header's byte time followed by
    `chunkHeight * dotPrintTime`. -/
def bitmap_claim_sched (s : PrinterState) (h : Nat) (laa : Bool) : List ℚ :=
  let mch := if laa then 1 else 255
  (pyRange h mch).flatMap fun rowStart =>
    [(4 : ℚ) * s.byte_time, ((min (h - rowStart) mch : Nat) : ℚ) * s.dot_print_time]

/-- The fields of the state that no driver operation may change: the timing
    parameters, the transport mode and the firmware version. -/
def params_eq (s s2 : PrinterState) : Prop :=
  s2.byte_time = s.byte_time ∧ s2.dot_print_time = s.dot_print_time ∧
    s2.dot_feed_time = s.dot_feed_time ∧
    s2.write_to_stdout = s.write_to_stdout ∧
    s2.firmware_version = s.firmware_version

/-! ### Helper lemmas -/

lemma params_eq_refl (s : PrinterState) : params_eq s s :=
  ⟨rfl, rfl, rfl, rfl, rfl⟩

lemma params_eq_trans {s1 s2 s3 : PrinterState}
    (h1 : params_eq s1 s2) (h2 : params_eq s2 s3) : params_eq s1 s3 := by
  obtain ⟨a1, b1, c1, d1, e1⟩ := h1
  obtain ⟨a2, b2, c2, d2, e2⟩ := h2
  exact ⟨a2.trans a1, b2.trans b1, c2.trans c1, d2.trans d1, e2.trans e1⟩

lemma write_bytes_params (s : PrinterState) (t : ℚ) (args : List Nat) :
    params_eq s (write_bytes s t args).st := by
  unfold write_bytes timeout_set
  split <;> exact ⟨rfl, rfl, rfl, rfl, rfl⟩

lemma write_char_params (s : PrinterState) (t : ℚ) (c : Nat) :
    params_eq s (write_char s t c).st := by
  unfold write_char timeout_set
  split
  · exact params_eq_refl s
  split
  · exact params_eq_refl s
  split
  · split <;> exact ⟨rfl, rfl, rfl, rfl, rfl⟩
  · exact ⟨rfl, rfl, rfl, rfl, rfl⟩

lemma write_params (data : List Nat) :
    ∀ (s : PrinterState) (t : ℚ), params_eq s (write s t data).st := by
  induction data with
  | nil => intro s t; exact params_eq_refl s
  | cons c rest ih =>
    intro s t
    exact params_eq_trans (write_char_params s t c)
      (ih (write_char s t c).st (write_char s t c).now)

lemma write_bytes_out (s : PrinterState) (t : ℚ) (args : List Nat) :
    (write_bytes s t args).out = args := by
  unfold write_bytes; split <;> rfl

lemma write_bytes_now (s : PrinterState) (t : ℚ) (args : List Nat)
    (hs : s.write_to_stdout = false) :
    (write_bytes s t args).now = max t s.resume_time := by
  simp [write_bytes, timeout_wait, hs]

lemma write_bytes_sched (s : PrinterState) (t : ℚ) (args : List Nat)
    (hs : s.write_to_stdout = false) :
    (write_bytes s t args).sched = [(args.length : ℚ) * s.byte_time] := by
  simp [write_bytes, hs]

lemma write_bytes_resume (s : PrinterState) (t : ℚ) (args : List Nat)
    (hs : s.write_to_stdout = false) :
    (write_bytes s t args).st.resume_time =
      max t s.resume_time + (args.length : ℚ) * s.byte_time := by
  simp [write_bytes, timeout_set, timeout_wait, hs]

lemma write_bytes_mono (s : PrinterState) (t : ℚ) (args : List Nat)
    (hb : 0 ≤ s.byte_time) :
    s.resume_time ≤ (write_bytes s t args).st.resume_time := by
  unfold write_bytes timeout_set timeout_wait
  split
  · exact le_refl _
  · simp only
    calc s.resume_time ≤ max t s.resume_time := le_max_right _ _
    _ ≤ max t s.resume_time + (args.length : ℚ) * s.byte_time := by
        have : 0 ≤ (args.length : ℚ) * s.byte_time :=
          mul_nonneg (by positivity) hb
        linarith

lemma write_char_mono (s : PrinterState) (t : ℚ) (c : Nat)
    (hb : 0 ≤ s.byte_time) (hp : 0 ≤ s.dot_print_time)
    (hf : 0 ≤ s.dot_feed_time) :
    s.resume_time ≤ (write_char s t c).st.resume_time := by
  have hmax : s.resume_time ≤ max t s.resume_time := le_max_right _ _
  have h1 : (0 : ℚ) ≤ ((s.char_height : ℚ) + (s.line_spacing : ℚ)) * s.dot_feed_time :=
    mul_nonneg (by positivity) hf
  have h2 : (0 : ℚ) ≤ (s.char_height : ℚ) * s.dot_print_time :=
    mul_nonneg (by positivity) hp
  have h3 : (0 : ℚ) ≤ (s.line_spacing : ℚ) * s.dot_feed_time :=
    mul_nonneg (by positivity) hf
  unfold write_char timeout_set timeout_wait
  split
  · exact le_refl _
  split
  · exact le_refl _
  split
  · split <;> · dsimp only; linarith
  · dsimp only; linarith

lemma write_bytes_st (s : PrinterState) (t : ℚ) (args : List Nat)
    (hs : s.write_to_stdout = false) :
    (write_bytes s t args).st =
      { s with resume_time := max t s.resume_time + (args.length : ℚ) * s.byte_time } := by
  simp [write_bytes, timeout_set, timeout_wait, hs]

lemma write_bytes_st_stdout (s : PrinterState) (t : ℚ) (args : List Nat)
    (hs : s.write_to_stdout = true) :
    (write_bytes s t args).st = s := by
  simp [write_bytes, hs]

lemma write_mono (data : List Nat) :
    ∀ (s : PrinterState) (t : ℚ), 0 ≤ s.byte_time → 0 ≤ s.dot_print_time →
      0 ≤ s.dot_feed_time → s.resume_time ≤ (write s t data).st.resume_time := by
  induction data with
  | nil => intro s t _ _ _; exact le_refl _
  | cons c rest ih =>
    intro s t hb hp hf
    obtain ⟨e1, e2, e3, _, _⟩ := write_char_params s t c
    calc s.resume_time ≤ (write_char s t c).st.resume_time :=
          write_char_mono s t c hb hp hf
    _ ≤ (write (write_char s t c).st (write_char s t c).now rest).st.resume_time :=
          ih _ _ (e1 ▸ hb) (e2 ▸ hp) (e3 ▸ hf)

lemma apply_print_mode_dims_eq (s : PrinterState) :
    apply_print_mode_dims s =
      { s with
        char_height := if s.print_mode &&& DOUBLE_HEIGHT_MASK ≠ 0 then 48 else 24
        max_column := if s.print_mode &&& DOUBLE_WIDTH_MASK ≠ 0 then 16 else 32 } := by
  unfold apply_print_mode_dims
  split <;> split <;> simp_all

lemma set_size_params (s : PrinterState) (t : ℚ) (v : Char) :
    params_eq s (set_size s t v).st := by
  unfold set_size
  exact write_bytes_params _ _ _

lemma set_size_mono (s : PrinterState) (t : ℚ) (v : Char)
    (hb : 0 ≤ s.byte_time) :
    s.resume_time ≤ (set_size s t v).st.resume_time := by
  unfold set_size
  exact write_bytes_mono _ _ _ hb

lemma feed_params (s : PrinterState) (t : ℚ) (x : Nat) :
    params_eq s (feed s t x).st := by
  unfold feed
  split
  · dsimp only [timeout_set]
    obtain ⟨a, b, c, d, e⟩ := write_bytes_params s t [27, 100, x]
    exact ⟨a, b, c, d, e⟩
  · exact write_params _ s t

lemma feed_mono (s : PrinterState) (t : ℚ) (x : Nat)
    (hs : s.write_to_stdout = false) (hb : 0 ≤ s.byte_time)
    (hp : 0 ≤ s.dot_print_time) (hf : 0 ≤ s.dot_feed_time) :
    s.resume_time ≤ (feed s t x).st.resume_time := by
  unfold feed
  split
  · dsimp only [timeout_set]
    rw [write_bytes_st s t _ hs, write_bytes_now s t _ hs]
    dsimp only
    have : (0 : ℚ) ≤ s.dot_feed_time * (s.char_height : ℚ) :=
      mul_nonneg hf (by positivity)
    have := le_max_right t s.resume_time
    linarith
  · exact write_mono _ s t hb hp hf

lemma feed_rows_params (s : PrinterState) (t : ℚ) (x : Nat) :
    params_eq s (feed_rows s t x).st := by
  unfold feed_rows
  dsimp only [timeout_set]
  obtain ⟨a, b, c, d, e⟩ := write_bytes_params s t [27, 74, x]
  exact ⟨a, b, c, d, e⟩

lemma feed_rows_mono (s : PrinterState) (t : ℚ) (x : Nat)
    (hs : s.write_to_stdout = false) (hf : 0 ≤ s.dot_feed_time) :
    s.resume_time ≤ (feed_rows s t x).st.resume_time := by
  unfold feed_rows
  dsimp only [timeout_set]
  rw [write_bytes_st s t _ hs, write_bytes_now s t _ hs]
  dsimp only
  have : (0 : ℚ) ≤ (x : ℚ) * s.dot_feed_time := mul_nonneg (by positivity) hf
  have := le_max_right t s.resume_time
  linarith

lemma reset_params (s : PrinterState) (t : ℚ) :
    params_eq s (reset s t).st := by
  unfold reset
  obtain h1 := write_bytes_params s t [27, 64]
  dsimp only
  split
  · dsimp only
    refine params_eq_trans ?_ (params_eq_trans (write_bytes_params _ _ _)
      (params_eq_trans (write_bytes_params _ _ _) (write_bytes_params _ _ _)))
    obtain ⟨a, b, c, d, e⟩ := h1
    exact ⟨a, b, c, d, e⟩
  · dsimp only
    obtain ⟨a, b, c, d, e⟩ := h1
    exact ⟨a, b, c, d, e⟩

lemma print_barcode_params (s : PrinterState) (t : ℚ) (text : List Nat) (ty : Nat) :
    params_eq s (print_barcode s t text ty).st := by
  unfold print_barcode
  dsimp only
  split <;> split
  all_goals
    first
    | exact params_eq_refl s
    | · dsimp only [timeout_set]
        refine params_eq_trans (feed_params s t 1) ?_
        obtain ⟨a, b, c, d, e⟩ :=
          write_bytes_params (feed s t 1).st (feed s t 1).now _
        exact ⟨a, b, c, d, e⟩

lemma print_barcode_mono (s : PrinterState) (t : ℚ) (text : List Nat) (ty : Nat)
    (hs : s.write_to_stdout = false) (hb : 0 ≤ s.byte_time)
    (hp : 0 ≤ s.dot_print_time) (hf : 0 ≤ s.dot_feed_time) :
    s.resume_time ≤ (print_barcode s t text ty).st.resume_time := by
  unfold print_barcode
  dsimp only
  split <;> split
  all_goals
    first
    | exact le_refl _
    | · dsimp only [timeout_set, timeout_wait]
        split
        · rename_i hflag
          rw [(write_bytes_params _ _ _).2.2.2.1, (feed_params s t 1).2.2.2.1]
            at hflag
          rw [hs] at hflag
          exact absurd hflag (by simp)
        · refine le_trans ?_ (le_add_of_nonneg_right ?_)
          · exact le_trans (le_trans (feed_mono s t 1 hs hb hp hf)
              (write_bytes_mono _ _ _ ((feed_params s t 1).1 ▸ hb)))
              (le_max_right _ _)
          · refine mul_nonneg (by positivity) ?_
            rw [(write_bytes_params _ _ _).2.1, (feed_params s t 1).2.1]
            exact hp

lemma print_bitmap_go_params (bitmap : Nat → Nat) (rb cl mch h : Nat)
    (l : List Nat) :
    ∀ (s : PrinterState) (t : ℚ) (i : Nat),
      params_eq s (print_bitmap_go bitmap rb cl mch h l s t i).st := by
  induction l with
  | nil => intro s t i; exact params_eq_refl s
  | cons rowStart rest ih =>
    intro s t i
    unfold print_bitmap_go
    dsimp only [timeout_set]
    refine params_eq_trans ?_ (ih _ _ _)
    obtain ⟨a, b, c, d, e⟩ := write_bytes_params s t
      [18, 42, if h - rowStart > mch then mch else h - rowStart, cl]
    exact ⟨a, b, c, d, e⟩

lemma print_bitmap_go_mono (bitmap : Nat → Nat) (rb cl mch h : Nat)
    (l : List Nat) :
    ∀ (s : PrinterState) (t : ℚ) (i : Nat),
      s.write_to_stdout = false → 0 ≤ s.byte_time → 0 ≤ s.dot_print_time →
      s.resume_time ≤ (print_bitmap_go bitmap rb cl mch h l s t i).st.resume_time := by
  induction l with
  | nil => intro s t i _ _ _; exact le_refl _
  | cons rowStart rest ih =>
    intro s t i hs hb hp
    unfold print_bitmap_go
    dsimp only [timeout_set]
    have pw := write_bytes_params s t
      [18, 42, if h - rowStart > mch then mch else h - rowStart, cl]
    refine le_trans ?_ (ih _ _ _ (by rw [pw.2.2.2.1]; exact hs)
      (by rw [pw.1]; exact hb) (by rw [pw.2.1]; exact hp))
    dsimp only
    rw [write_bytes_now s t _ hs]
    refine le_trans (le_max_right t s.resume_time) (le_add_of_nonneg_right ?_)
    refine mul_nonneg (by positivity) ?_
    rw [pw.2.1]
    exact hp

lemma print_bitmap_params (s : PrinterState) (t : ℚ) (w h : Nat)
    (bitmap : Nat → Nat) (laa : Bool) :
    params_eq s (print_bitmap s t w h bitmap laa).st := by
  unfold print_bitmap
  dsimp only
  obtain ⟨a, b, c, d, e⟩ := print_bitmap_go_params bitmap ((w + 7) / 8)
    (if (w + 7) / 8 ≥ 48 then 48 else (w + 7) / 8) (if laa then 1 else 255) h
    (pyRange h (if laa then 1 else 255)) s t 0
  exact ⟨a, b, c, d, e⟩

lemma print_bitmap_mono (s : PrinterState) (t : ℚ) (w h : Nat)
    (bitmap : Nat → Nat) (laa : Bool) (hs : s.write_to_stdout = false)
    (hb : 0 ≤ s.byte_time) (hp : 0 ≤ s.dot_print_time) :
    s.resume_time ≤ (print_bitmap s t w h bitmap laa).st.resume_time := by
  unfold print_bitmap
  dsimp only
  exact print_bitmap_go_mono _ _ _ _ _ _ s t 0 hs hb hp

lemma wake_loop_params (n : Nat) :
    ∀ (s : PrinterState) (t : ℚ), params_eq s (wake_loop s t n).st := by
  induction n with
  | zero => intro s t; exact params_eq_refl s
  | succ k ih =>
    intro s t
    unfold wake_loop
    dsimp only [timeout_set]
    refine params_eq_trans ?_ (ih _ _)
    obtain ⟨a, b, c, d, e⟩ := write_bytes_params s t [27]
    exact ⟨a, b, c, d, e⟩

lemma wake_params (s : PrinterState) (t : ℚ) :
    params_eq s (wake s t).st := by
  unfold wake
  dsimp only [timeout_set]
  split
  · dsimp only
    obtain ⟨a1, b1, c1, d1, e1⟩ := write_bytes_params
      { s with resume_time := t + 0 } t [255]
    obtain ⟨a2, b2, c2, d2, e2⟩ := write_bytes_params
      (write_bytes { s with resume_time := t + 0 } t [255]).st
      ((write_bytes { s with resume_time := t + 0 } t [255]).now + 1 / 20)
      [27, 118, 0]
    exact ⟨a2.trans a1, b2.trans b1, c2.trans c1, d2.trans d1, e2.trans e1⟩
  · dsimp only
    refine params_eq_trans ?_ (wake_loop_params 10 _ _)
    obtain ⟨a, b, c, d, e⟩ := write_bytes_params
      { s with resume_time := t + 0 } t [255]
    exact ⟨a, b, c, d, e⟩

lemma apply_print_mode_dims_params (s : PrinterState) :
    params_eq s (apply_print_mode_dims s) := by
  rw [apply_print_mode_dims_eq]
  exact ⟨rfl, rfl, rfl, rfl, rfl⟩

lemma apply_print_mode_dims_resume (s : PrinterState) :
    (apply_print_mode_dims s).resume_time = s.resume_time := by
  rw [apply_print_mode_dims_eq]

lemma set_print_mode_params (s : PrinterState) (t : ℚ) (mask : Nat) :
    params_eq s (set_print_mode s t mask).st := by
  unfold set_print_mode write_print_mode
  dsimp only
  refine params_eq_trans ?_ (apply_print_mode_dims_params _)
  obtain ⟨a, b, c, d, e⟩ :=
    write_bytes_params { s with print_mode := s.print_mode ||| mask } t _
  exact ⟨a, b, c, d, e⟩

lemma set_print_mode_mono (s : PrinterState) (t : ℚ) (mask : Nat)
    (hb : 0 ≤ s.byte_time) :
    s.resume_time ≤ (set_print_mode s t mask).st.resume_time := by
  unfold set_print_mode write_print_mode
  dsimp only
  rw [apply_print_mode_dims_resume]
  exact write_bytes_mono _ _ _ hb

lemma unset_print_mode_params (s : PrinterState) (t : ℚ) (mask : Nat) :
    params_eq s (unset_print_mode s t mask).st := by
  unfold unset_print_mode write_print_mode
  dsimp only
  refine params_eq_trans ?_ (apply_print_mode_dims_params _)
  obtain ⟨a, b, c, d, e⟩ := write_bytes_params
    { s with print_mode := s.print_mode - (s.print_mode &&& mask) } t _
  exact ⟨a, b, c, d, e⟩

lemma unset_print_mode_mono (s : PrinterState) (t : ℚ) (mask : Nat)
    (hb : 0 ≤ s.byte_time) :
    s.resume_time ≤ (unset_print_mode s t mask).st.resume_time := by
  unfold unset_print_mode write_print_mode
  dsimp only
  rw [apply_print_mode_dims_resume]
  exact write_bytes_mono _ _ _ hb

lemma wb_chain {r : ℚ} (s : PrinterState) (t : ℚ) (args : List Nat)
    (hb : 0 ≤ s.byte_time) (hr : r ≤ s.resume_time) :
    r ≤ (write_bytes s t args).st.resume_time :=
  le_trans hr (write_bytes_mono s t args hb)

lemma reset_mono (s : PrinterState) (t : ℚ) (hb : 0 ≤ s.byte_time) :
    s.resume_time ≤ (reset s t).st.resume_time := by
  unfold reset
  have h1 := write_bytes_mono s t [27, 64] hb
  have hbt : (write_bytes s t [27, 64]).st.byte_time = s.byte_time :=
    (write_bytes_params s t [27, 64]).1
  dsimp only
  split
  · dsimp only
    apply wb_chain _ _ _
      (by rw [(write_bytes_params _ _ _).1, (write_bytes_params _ _ _).1]; exact hbt ▸ hb)
    apply wb_chain _ _ _ (by rw [(write_bytes_params _ _ _).1]; exact hbt ▸ hb)
    apply wb_chain _ _ _ (hbt ▸ hb)
    exact h1
  · exact h1

lemma runOp_params (op : Op) (s : PrinterState) (t : ℚ) :
    params_eq s (runOp op s t).st := by
  cases op with
  | write data => exact write_params data s t
  | set_size v => exact set_size_params s t v
  | bold_on => exact set_print_mode_params s t _
  | bold_off => exact unset_print_mode_params s t _
  | strike_on => exact set_print_mode_params s t _
  | strike_off => exact unset_print_mode_params s t _
  | inverse_on =>
    simp only [runOp]
    unfold inverseOn
    split
    · exact write_bytes_params _ _ _
    · exact set_print_mode_params _ _ _
  | inverse_off =>
    simp only [runOp]
    unfold inverse_off
    split
    · exact write_bytes_params _ _ _
    · exact unset_print_mode_params _ _ _
  | upside_down_on => exact set_print_mode_params s t _
  | upside_down_off => exact unset_print_mode_params s t _
  | double_height_on => exact set_print_mode_params s t _
  | double_height_off => exact unset_print_mode_params s t _
  | double_width_on => exact set_print_mode_params s t _
  | double_width_off => exact unset_print_mode_params s t _
  | underline_on w =>
    simp only [runOp]
    unfold underline_on
    exact write_bytes_params _ _ _
  | underline_off => exact write_bytes_params _ _ _
  | justify v =>
    simp only [runOp]
    unfold justify
    exact write_bytes_params _ _ _
  | feed n => exact feed_params s t n
  | feed_rows n => exact feed_rows_params s t n
  | set_line_height v =>
    simp only [runOp]
    unfold set_line_height
    obtain ⟨a, b, c, d, e⟩ := write_bytes_params
      { s with line_spacing := (if v < 24 then 24 else v) - 24 } t _
    exact ⟨a, b, c, d, e⟩
  | set_barcode_height v =>
    simp only [runOp]
    unfold set_barcode_height
    obtain ⟨a, b, c, d, e⟩ := write_bytes_params
      { s with barcode_height := if v < 1 then 1 else v } t _
    exact ⟨a, b, c, d, e⟩
  | print_barcode text ty => exact print_barcode_params s t text ty
  | print_bitmap w h bitmap laa => exact print_bitmap_params s t w h bitmap laa
  | set_charset v =>
    simp only [runOp]
    unfold set_charset
    exact write_bytes_params _ _ _
  | set_code_page v =>
    simp only [runOp]
    unfold set_code_page
    exact write_bytes_params _ _ _
  | sleep =>
    simp only [runOp]
    unfold printer_sleep sleep_after
    split
    · exact write_bytes_params _ _ _
    · exact write_bytes_params _ _ _
  | sleep_after n =>
    simp only [runOp]
    unfold sleep_after
    split
    · exact write_bytes_params _ _ _
    · exact write_bytes_params _ _ _
  | wake => exact wake_params s t
  | online => exact write_bytes_params _ _ _
  | offline => exact write_bytes_params _ _ _
  | reset => exact reset_params s t
  | has_paper status =>
    simp only [runOp]
    unfold has_paper
    dsimp only
    split
    · exact write_bytes_params _ _ _
    · exact write_bytes_params _ _ _

lemma runOp_mono (op : Op) (s : PrinterState) (t : ℚ) (hw : op.isWake = false)
    (hs : s.write_to_stdout = false) (hb : 0 ≤ s.byte_time)
    (hp : 0 ≤ s.dot_print_time) (hf : 0 ≤ s.dot_feed_time) :
    s.resume_time ≤ (runOp op s t).st.resume_time := by
  cases op with
  | write data => exact write_mono data s t hb hp hf
  | set_size v => exact set_size_mono s t v hb
  | bold_on => exact set_print_mode_mono s t _ hb
  | bold_off => exact unset_print_mode_mono s t _ hb
  | strike_on => exact set_print_mode_mono s t _ hb
  | strike_off => exact unset_print_mode_mono s t _ hb
  | inverse_on =>
    simp only [runOp]
    unfold inverseOn
    split
    · exact write_bytes_mono _ _ _ hb
    · exact set_print_mode_mono _ _ _ hb
  | inverse_off =>
    simp only [runOp]
    unfold inverse_off
    split
    · exact write_bytes_mono _ _ _ hb
    · exact unset_print_mode_mono _ _ _ hb
  | upside_down_on => exact set_print_mode_mono s t _ hb
  | upside_down_off => exact unset_print_mode_mono s t _ hb
  | double_height_on => exact set_print_mode_mono s t _ hb
  | double_height_off => exact unset_print_mode_mono s t _ hb
  | double_width_on => exact set_print_mode_mono s t _ hb
  | double_width_off => exact unset_print_mode_mono s t _ hb
  | underline_on w =>
    simp only [runOp]
    unfold underline_on
    exact write_bytes_mono _ _ _ hb
  | underline_off => exact write_bytes_mono _ _ _ hb
  | justify v =>
    simp only [runOp]
    unfold justify
    exact write_bytes_mono _ _ _ hb
  | feed n => exact feed_mono s t n hs hb hp hf
  | feed_rows n => exact feed_rows_mono s t n hs hf
  | set_line_height v =>
    simp only [runOp]
    unfold set_line_height
    exact write_bytes_mono _ _ _ hb
  | set_barcode_height v =>
    simp only [runOp]
    unfold set_barcode_height
    exact write_bytes_mono _ _ _ hb
  | print_barcode text ty => exact print_barcode_mono s t text ty hs hb hp hf
  | print_bitmap w h bitmap laa => exact print_bitmap_mono s t w h bitmap laa hs hb hp
  | set_charset v =>
    simp only [runOp]
    unfold set_charset
    exact write_bytes_mono _ _ _ hb
  | set_code_page v =>
    simp only [runOp]
    unfold set_code_page
    exact write_bytes_mono _ _ _ hb
  | sleep =>
    simp only [runOp]
    unfold printer_sleep sleep_after
    split
    · exact write_bytes_mono _ _ _ hb
    · exact write_bytes_mono _ _ _ hb
  | sleep_after n =>
    simp only [runOp]
    unfold sleep_after
    split
    · exact write_bytes_mono _ _ _ hb
    · exact write_bytes_mono _ _ _ hb
  | wake => simp [Op.isWake] at hw
  | online => exact write_bytes_mono _ _ _ hb
  | offline => exact write_bytes_mono _ _ _ hb
  | reset => exact reset_mono s t hb
  | has_paper status =>
    simp only [runOp]
    unfold has_paper
    dsimp only
    split
    · exact write_bytes_mono _ _ _ hb
    · exact write_bytes_mono _ _ _ hb


/-! ### Claim C2 -/

/-- C2 counterexample: `wake()` begins with `timeout_set(0)` (line 571),
    which rewinds `resume_time` to the current wall-clock time.  On a
    serial driver whose `resume_time` is 1000 seconds in the future,
    calling `wake()` at time 0 leaves `resume_time` at 1/20 + byte times,
    strictly earlier than before — so `resumeTime` is not monotonically
    non-decreasing over every operation sequence. -/
theorem c2_wake_retreats_resume_time :
    (wake { initState with resume_time := 1000 } 0).st.resume_time <
      ({ initState with resume_time := 1000 } : PrinterState).resume_time := by
  norm_num [wake, write_bytes, timeout_set, timeout_wait, initState]

/-- C2 (amended): on a serial-mode driver with nonnegative timing
    parameters, `resumeTime` is monotonically non-decreasing across any
    sequence of public operations that does not contain `wake()`; `wake()`
    instead resets `resumeTime` relative to the current time and may move
    it earlier. -/
theorem c2_amended_resume_monotone_without_wake (ops : List Op) :
    ∀ (s : PrinterState) (t : ℚ), (∀ op ∈ ops, op.isWake = false) →
      s.write_to_stdout = false → 0 ≤ s.byte_time → 0 ≤ s.dot_print_time →
      0 ≤ s.dot_feed_time →
      s.resume_time ≤ (runOps ops s t).st.resume_time := by
  induction ops with
  | nil => intro s t _ _ _ _ _; exact le_refl _
  | cons op rest ih =>
    intro s t hw hs hb hp hf
    obtain ⟨qb, qp, qf, qs, _⟩ := runOp_params op s t
    refine le_trans
      (runOp_mono op s t (hw op (List.mem_cons_self op rest)) hs hb hp hf) ?_
    exact ih _ _ (fun o ho => hw o (List.mem_cons_of_mem op ho))
      (qs.trans hs) (qb ▸ hb) (qp ▸ hp) (qf ▸ hf)

/-- Witness for C2 (amended) at a concrete operation sequence. -/
theorem c2_amended_resume_monotone_without_wake_witness :
    (∀ op ∈ [Op.reset, Op.feed 1, Op.write [72, 105, 10]], op.isWake = false) ∧
      initState.resume_time ≤
        (runOps [Op.reset, Op.feed 1, Op.write [72, 105, 10]] initState 0).st.resume_time :=
  ⟨by decide, c2_amended_resume_monotone_without_wake _ initState 0 (by decide)
    rfl (le_refl 0) (le_refl 0) (le_refl 0)⟩

/-! ### Claim C1 -/

/-- C1: for every character sent through the serial-mode write pipeline
    (any byte other than 0x13), the busy duration scheduled after
    transmitting the byte equals `byteTime`, plus, when the byte is a
    newline or the column equals `maxColumn`, an additional
    `(charHeight + lineSpacing) * dotFeedTime` if `prevByte` was a newline
    (blank line), and otherwise
    `charHeight * dotPrintTime + lineSpacing * dotFeedTime` (text line). -/
theorem c1_write_busy_duration (s : PrinterState) (t : ℚ) (c : Nat)
    (hs : s.write_to_stdout = false) (hc : c ≠ 0x13) :
    (write_char s t c).sched =
      [s.byte_time +
        (if c = newline ∨ s.column = s.max_column then
           (if s.prev_byte = newline then
              ((s.char_height : ℚ) + (s.line_spacing : ℚ)) * s.dot_feed_time
            else
              (s.char_height : ℚ) * s.dot_print_time +
                (s.line_spacing : ℚ) * s.dot_feed_time)
         else 0)] := by
  unfold write_char
  simp only [hs, Bool.false_eq_true, if_false, hc]
  split_ifs <;> (simp; try ring)

/-- Witness for C1 at a concrete state and input byte. -/
theorem c1_write_busy_duration_witness :
    initState.write_to_stdout = false ∧ (97 : Nat) ≠ 0x13 ∧
      (write_char initState 0 97).sched =
        [initState.byte_time +
          (if (97 : Nat) = newline ∨ initState.column = initState.max_column then
             (if initState.prev_byte = newline then
                ((initState.char_height : ℚ) + (initState.line_spacing : ℚ)) *
                  initState.dot_feed_time
              else
                (initState.char_height : ℚ) * initState.dot_print_time +
                  (initState.line_spacing : ℚ) * initState.dot_feed_time)
           else 0)] :=
  ⟨rfl, by decide, c1_write_busy_duration initState 0 97 rfl (by decide)⟩

/-! ### Claim C8 -/

/-- C8 counterexample: with the pass-through (stdout) sink, the status
    byte 0x13 is NOT filtered: the stdout branch of `write` runs before
    the 0x13 test, so the byte is forwarded to the sink. -/
theorem c8_stdout_transmits_status_byte :
    (write_char { initState with write_to_stdout := true } 0 0x13).out =
      [0x13] := by decide

/-- C8 (amended): in serial mode the status byte 0x13 is filtered out of
    the write pipeline entirely — it is not transmitted and leaves the
    whole printer state (including `resumeTime`, `column` and `prevByte`)
    unchanged; with the pass-through/stdout sink, every character,
    including 0x13, is forwarded to the sink verbatim and the printer
    state is never touched. -/
theorem c8_amended_status_byte_filter (s s2 : PrinterState) (t : ℚ) (c : Nat)
    (h1 : s.write_to_stdout = false) (h2 : s2.write_to_stdout = true) :
    write_char s t 0x13 = ⟨s, t, [], []⟩ ∧
      write_char s2 t c = ⟨s2, t, [c], []⟩ := by
  constructor
  · unfold write_char
    simp [h1]
  · unfold write_char
    simp [h2]

/-- Witness for C8 (amended) at concrete serial and stdout states. -/
theorem c8_amended_status_byte_filter_witness :
    write_char initState 0 0x13 = ⟨initState, 0, [], []⟩ ∧
      write_char { initState with write_to_stdout := true } 0 0x13 =
        ⟨{ initState with write_to_stdout := true }, 0, [0x13], []⟩ :=
  c8_amended_status_byte_filter initState
    { initState with write_to_stdout := true } 0 0x13 rfl rfl

/-! ### Claim C7 -/

/-- C7: the spec asks that `set_size` leave `prevByte` equal to newline,
    but line 460 of the source assigns the newline to a local variable
    `prevByte` that is never stored into the instance, so the state's
    `prev_byte` keeps its old value: with `prev_byte = 97` before the
    call, it is still 97 (not newline) afterwards, for each of S, M, L. -/
theorem c7_set_size_leaves_prev_byte :
    ((set_size { initState with prev_byte := 97 } 0 'S').st.prev_byte = 97 ∧
      (set_size { initState with prev_byte := 97 } 0 'M').st.prev_byte = 97 ∧
      (set_size { initState with prev_byte := 97 } 0 'L').st.prev_byte = 97) ∧
      (set_size { initState with prev_byte := 97 } 0 'S').st.prev_byte ≠
        newline := by
  constructor
  · refine ⟨?_, ?_, ?_⟩ <;> decide
  · decide

/-! ### Claim C4 -/

/-- C4: for a symbology in the driver's barcode enumeration that the
    active firmware family's table does not map (I25, CODEBAR, CODE11,
    MSI when `firmwareVersion ≥ 264`; ITF, CODABAR when
    `firmwareVersion < 264`), `print_barcode` writes zero bytes, raises
    no error, schedules nothing, and leaves the entire printer state
    (in particular `prevByte`) unchanged. -/
theorem c4_unsupported_barcode_noop (s : PrinterState) (t : ℚ)
    (text : List Nat) (ty : Nat)
    (h : (264 ≤ s.firmware_version ∧
            (ty = I25 ∨ ty = CODEBAR ∨ ty = CODE11 ∨ ty = MSI)) ∨
         (s.firmware_version < 264 ∧ (ty = ITF ∨ ty = CODABAR))) :
    print_barcode s t text ty = ⟨s, t, [], []⟩ := by
  unfold print_barcode
  rcases h with ⟨hfw, hty⟩ | ⟨hfw, hty⟩
  · have hn : new_dict ty = -1 := by
      rcases hty with h | h | h | h <;> subst h <;> decide
    simp [hfw, hn]
  · have hn : old_dict ty = -1 := by
      rcases hty with h | h <;> (subst h; decide)
    simp [Nat.not_le.mpr hfw, hn]

/-- Witness for C4: MSI is absent from the new-firmware table, so with
    default firmware 2.68 the call is a complete no-op. -/
theorem c4_unsupported_barcode_noop_witness :
    (264 ≤ initState.firmware_version ∧
        (MSI = I25 ∨ MSI = CODEBAR ∨ MSI = CODE11 ∨ MSI = MSI)) ∧
      print_barcode initState 0 [49, 50, 51] MSI = ⟨initState, 0, [], []⟩ :=
  ⟨⟨by decide, by decide⟩,
    c4_unsupported_barcode_noop initState 0 [49, 50, 51] MSI
      (Or.inl ⟨by decide, by decide⟩)⟩

/-! ### Claim C10 -/

/-- C10: after `print_bitmap`, and after `print_barcode` with a symbology
    the active firmware family supports, the state's `prevByte` equals
    newline, so the next newline written is timed as a blank-line feed. -/
theorem c10_graphics_set_prev_byte_newline (s : PrinterState) (t : ℚ)
    (text : List Nat) (ty : Nat) (w h : Nat) (bitmap : Nat → Nat) (laa : Bool)
    (hsupp : (if 264 ≤ s.firmware_version then new_dict ty else old_dict ty) ≠ -1) :
    (print_barcode s t text ty).st.prev_byte = newline ∧
      (print_bitmap s t w h bitmap laa).st.prev_byte = newline := by
  constructor
  · unfold print_barcode
    dsimp only
    rw [if_neg hsupp]
  · rfl

/-- Witness for C10: CODE39 is in both firmware tables; concrete call on
    the default state. -/
theorem c10_graphics_set_prev_byte_newline_witness :
    ((if 264 ≤ initState.firmware_version then new_dict CODE39
      else old_dict CODE39) ≠ -1) ∧
      (print_barcode initState 0 [65] CODE39).st.prev_byte = newline ∧
      (print_bitmap initState 0 400 10 (fun i => i % 256) false).st.prev_byte =
        newline :=
  ⟨by decide,
    c10_graphics_set_prev_byte_newline initState 0 [65] CODE39 400 10
      (fun i => i % 256) false (by decide)⟩

/-! ### Claim C9 -/

/-- C9 counterexample: `reset()` does not clear the `printMode` bitmask —
    with BOLD set before the call, the bitmask is still BOLD afterwards,
    refuting "printMode bitmask cleared". -/
theorem c9_reset_keeps_print_mode :
    ¬ ((reset { initState with print_mode := BOLD_MASK } 0).st.print_mode
        = 0) := by decide

/-- C9 (amended): `reset()` emits the two bytes 27, 64, restores
    `column = 0`, `maxColumn = 32`, `charHeight = 24`, `lineSpacing = 6`,
    `barcodeHeight = 50` and `prevByte = newline`, leaves the `printMode`
    bitmask unchanged, and additionally emits the tab-stop configuration
    bytes `27 68`, `4 8 12 16`, `20 24 28 0` if and only if
    `firmwareVersion ≥ 264`. -/
theorem c9_amended_reset_state_and_bytes (s : PrinterState) (t : ℚ) :
    (reset s t).st.column = 0 ∧ (reset s t).st.max_column = 32 ∧
      (reset s t).st.char_height = 24 ∧ (reset s t).st.line_spacing = 6 ∧
      (reset s t).st.barcode_height = 50 ∧
      (reset s t).st.prev_byte = newline ∧
      (reset s t).st.print_mode = s.print_mode ∧
      (reset s t).out = [27, 64] ++
        (if 264 ≤ s.firmware_version then
          [27, 68] ++ [4, 8, 12, 16] ++ [20, 24, 28, 0] else []) := by
  have hfv : (write_bytes s t [27, 64]).st.firmware_version =
      s.firmware_version := (write_bytes_params s t [27, 64]).2.2.2.2
  have hst : ∀ (s1 : PrinterState) (t1 : ℚ) (args : List Nat),
      (write_bytes s1 t1 args).st.column = s1.column ∧
      (write_bytes s1 t1 args).st.max_column = s1.max_column ∧
      (write_bytes s1 t1 args).st.char_height = s1.char_height ∧
      (write_bytes s1 t1 args).st.line_spacing = s1.line_spacing ∧
      (write_bytes s1 t1 args).st.barcode_height = s1.barcode_height ∧
      (write_bytes s1 t1 args).st.prev_byte = s1.prev_byte ∧
      (write_bytes s1 t1 args).st.print_mode = s1.print_mode := by
    intro s1 t1 args
    unfold write_bytes timeout_set
    split <;> exact ⟨rfl, rfl, rfl, rfl, rfl, rfl, rfl⟩
  unfold reset
  dsimp only
  split <;> rename_i hfw <;> rw [hfv] at hfw <;>
    simp [write_bytes_out, hst, hfw]

/-! ### Claim C3 -/

/-- C3 counterexample: the invariant `0 ≤ column < maxColumn` does not
    hold between operations — after writing exactly `maxColumn = 32`
    printable characters from the default state, `column` equals 32, which
    is `maxColumn`, not less than it.  (The wrap is only detected while
    processing the next byte.) -/
theorem c3_column_equals_max_column :
    ¬ ((write initState 0 (List.replicate 32 97)).st.column <
        (write initState 0 (List.replicate 32 97)).st.max_column) := by decide

/-- C3 (amended): `write` preserves `0 ≤ column ≤ maxColumn` (the value
    `column = maxColumn` is reached after exactly `maxColumn` printable
    bytes, and the next byte is then treated as a line boundary).  During
    `write`, at a boundary byte (newline or `column = maxColumn`): if
    `prevByte` was not a newline (text line), `column` resets to 0 and
    `prevByte` records a newline; if `prevByte` was a newline (blank
    line), `column` is left unchanged and `prevByte` records the boundary
    byte itself; a non-boundary byte increments `column` by one. -/
theorem c3_amended_column_tracking (s : PrinterState) (t : ℚ)
    (data : List Nat) (c : Nat) (hs : s.write_to_stdout = false)
    (hc : c ≠ 0x13) :
    (s.column ≤ s.max_column →
      (write s t data).st.column ≤ (write s t data).st.max_column) ∧
    ((write_char s t c).st.column, (write_char s t c).st.prev_byte) =
      (if c = newline ∨ s.column = s.max_column then
         (if s.prev_byte = newline then (s.column, c) else (0, newline))
       else (s.column + 1, c)) := by
  constructor
  · intro hcol
    have hmc : ∀ (d : List Nat) (s1 : PrinterState) (t1 : ℚ),
        (write s1 t1 d).st.max_column = s1.max_column := by
      intro d
      induction d with
      | nil => intro s1 t1; rfl
      | cons x rest ih =>
        intro s1 t1
        have hx : (write_char s1 t1 x).st.max_column = s1.max_column := by
          unfold write_char timeout_set
          split
          · rfl
          split
          · rfl
          split
          · split <;> rfl
          · rfl
        unfold write
        dsimp only
        rw [ih, hx]
    have hcl : ∀ (d : List Nat) (s1 : PrinterState) (t1 : ℚ),
        s1.column ≤ s1.max_column →
        (write s1 t1 d).st.column ≤ s1.max_column := by
      intro d
      induction d with
      | nil => intro s1 t1 h1; exact h1
      | cons x rest ih =>
        intro s1 t1 h1
        have hx : (write_char s1 t1 x).st.column ≤ s1.max_column := by
          unfold write_char timeout_set
          split
          · exact h1
          split
          · exact h1
          split
          · split
            · exact h1
            · exact Nat.zero_le _
          · rename_i hnb
            have : s1.column ≠ s1.max_column := fun hh => hnb (Or.inr hh)
            exact Nat.succ_le_of_lt (Nat.lt_of_le_of_ne h1 this)
        have hxm : (write_char s1 t1 x).st.max_column = s1.max_column := by
          unfold write_char timeout_set
          split
          · rfl
          split
          · rfl
          split
          · split <;> rfl
          · rfl
        unfold write
        dsimp only
        exact le_trans (ih _ _ (by rw [hxm]; exact hx)) (le_of_eq hxm)
    rw [hmc]
    exact hcl data s t hcol
  · unfold write_char timeout_set
    simp only [hs, Bool.false_eq_true, if_false, hc]
    split_ifs <;> rfl

/-- Witness for C3 (amended) at a concrete state, byte and data. -/
theorem c3_amended_column_tracking_witness :
    initState.write_to_stdout = false ∧ (97 : Nat) ≠ 0x13 ∧
      ((initState.column ≤ initState.max_column →
        (write initState 0 (List.replicate 40 97)).st.column ≤
          (write initState 0 (List.replicate 40 97)).st.max_column) ∧
      ((write_char initState 0 97).st.column,
          (write_char initState 0 97).st.prev_byte) =
        (if (97 : Nat) = newline ∨ initState.column = initState.max_column then
           (if initState.prev_byte = newline then (initState.column, 97)
            else (0, newline))
         else (initState.column + 1, 97))) :=
  ⟨rfl, by decide,
    c3_amended_column_tracking initState 0 (List.replicate 40 97) 97 rfl
      (by decide)⟩

/-! ### Claim C6 -/

/-- C6: on old firmware (< 2.64) the spec says `print_barcode` emits the
    raw text followed by a NUL terminator, dropping non-ASCII bytes; the
    source's own comment (line 320) says "write string + NUL", but line
    324 writes only `text.encode("utf-8", "ignore")`: no NUL byte is
    appended (and UTF-8 keeps, rather than drops, non-ASCII).  Evaluating
    the embedded code at firmware 263 with text "AB" shows the stream ends
    with the text bytes 65, 66 and no trailing 0. -/
theorem c6_old_firmware_barcode_text_no_nul :
    (print_barcode { initState with firmware_version := 263 } 0 [65, 66]
        UPC_A).out = [10, 29, 72, 2, 29, 119, 3, 29, 107, 0, 65, 66] ∧
      (print_barcode { initState with firmware_version := 263 } 0 [65, 66]
        UPC_A).out.getLast? ≠ some 0 := by
  constructor <;> decide

/-! ### Claim C5 -/

lemma chunk_rows_eq (bitmap : Nat → Nat) (rb cl : Nat) (hcl : cl ≤ rb) :
    ∀ (ch i : Nat), chunk_rows bitmap rb cl i ch =
      (List.range ch).flatMap fun y =>
        (List.range cl).map fun x => bitmap (i + y * rb + x) := by
  intro ch
  induction ch with
  | zero => intro i; simp [chunk_rows]
  | succ n ih =>
    intro i
    have hi : i + cl + (rb - cl) = i + rb := by omega
    unfold chunk_rows
    rw [ih (i + cl + (rb - cl)), hi, List.range_succ_eq_map,
      List.flatMap_cons, List.flatMap_map]
    congr 1
    · apply List.map_congr_left
      intro x _
      simp
    · have hfun : (fun y => (List.range cl).map
          fun x => bitmap (i + rb + y * rb + x)) =
          ((fun y => (List.range cl).map
            fun x => bitmap (i + y * rb + x)) ∘ Nat.succ) := by
        funext y
        apply List.map_congr_left
        intro x _
        congr 1
        simp [Nat.succ_mul]
        ring
      rw [hfun]
      rfl

lemma print_bitmap_go_eq (bitmap : Nat → Nat) (rb cl mch h : Nat)
    (hcl : cl ≤ rb) :
    ∀ (n a : Nat) (s : PrinterState) (t : ℚ),
      s.write_to_stdout = false →
      (1 ≤ n → a + (n - 1) * mch < h) →
      (print_bitmap_go bitmap rb cl mch h (List.range' a n mch) s t
          (a * rb)).out =
        (List.range' a n mch).flatMap (fun rowStart =>
          [18, 42, min (h - rowStart) mch, cl] ++
            (List.range (min (h - rowStart) mch)).flatMap fun y =>
              (List.range cl).map fun x =>
                bitmap ((rowStart + y) * rb + x)) ∧
      (print_bitmap_go bitmap rb cl mch h (List.range' a n mch) s t
          (a * rb)).sched =
        (List.range' a n mch).flatMap (fun rowStart =>
          [(4 : ℚ) * s.byte_time,
            ((min (h - rowStart) mch : Nat) : ℚ) * s.dot_print_time]) := by
  intro n
  induction n with
  | zero =>
    intro a s t _ _
    exact ⟨rfl, rfl⟩
  | succ k ih =>
    intro a s t hs hbound
    have hlast : a + k * mch < h := by
      have := hbound (by omega)
      simpa using this
    have hch : (if h - a > mch then mch else h - a) = min (h - a) mch := by
      rw [Nat.min_def]
      split_ifs <;> omega
    have hdata : ∀ ch, chunk_rows bitmap rb cl (a * rb) ch =
        (List.range ch).flatMap fun y =>
          (List.range cl).map fun x => bitmap ((a + y) * rb + x) := by
      intro ch
      rw [chunk_rows_eq bitmap rb cl hcl]
      congr 1
      funext y
      apply List.map_congr_left
      intro x _
      congr 1
      ring
    rcases k with _ | k'
    · -- the single remaining chunk: the recursion ends on the empty list
      rw [List.range'_one]
      simp only [print_bitmap_go, List.flatMap_cons, List.flatMap_nil]
      rw [write_bytes_st _ _ _ hs, write_bytes_out,
        write_bytes_sched _ _ _ hs, hch]
      constructor
      · simp [hdata]
      · simp
    · -- at least one further chunk: the current chunk has full height mch
      have hmle : a + mch < h := by
        have h1 : mch ≤ (k' + 1) * mch := Nat.le_mul_of_pos_left _ (by omega)
        generalize hK : (k' + 1) * mch = K at h1 hlast
        omega
      have hch2 : min (h - a) mch = mch := by
        rw [Nat.min_def]
        split_ifs <;> omega
      have hidx : a * rb + mch * (cl + (rb - cl)) = (a + mch) * rb := by
        have hr : cl + (rb - cl) = rb := by omega
        rw [hr]
        ring
      have hbound2 : 1 ≤ k' + 1 → (a + mch) + (k' + 1 - 1) * mch < h := by
        intro _
        have hsm : (k' + 1) * mch = k' * mch + mch := Nat.succ_mul k' mch
        generalize hK : k' * mch = K at hsm ⊢
        rw [hsm] at hlast
        simp only [Nat.add_sub_cancel]
        omega
      rw [List.range'_succ]
      generalize hL : List.range' (a + mch) (k' + 1) mch = L
      simp only [print_bitmap_go]
      rw [write_bytes_st _ _ _ hs, write_bytes_now _ _ _ hs, write_bytes_out,
        write_bytes_sched _ _ _ hs, hch, hch2, hidx]
      rw [← hL]
      constructor
      · rw [(ih (a + mch) _ _ ?_ ?_).1, hdata]
        · simp [List.flatMap_cons, hch2]
        · exact hs
        · exact hbound2
      · rw [(ih (a + mch) _ _ ?_ ?_).2]
        · dsimp only [timeout_set]
          rw [List.flatMap_cons, hch2]
          simp
        · exact hs
        · exact hbound2

lemma ceil_div_bound (h mch : Nat) (hm : 0 < mch)
    (hq : 1 ≤ (h + mch - 1) / mch) :
    ((h + mch - 1) / mch - 1) * mch < h := by
  have hd : (h + mch - 1) / mch * mch ≤ h + mch - 1 := Nat.div_mul_le_self _ _
  have h2 : (h + mch - 1) / mch - 1 + 1 = (h + mch - 1) / mch :=
    Nat.succ_pred_eq_of_pos hq
  have hq1 : ((h + mch - 1) / mch - 1) * mch + mch =
      (h + mch - 1) / mch * mch := by
    calc ((h + mch - 1) / mch - 1) * mch + mch
        = ((h + mch - 1) / mch - 1 + 1) * mch := by rw [Nat.succ_mul]
      _ = (h + mch - 1) / mch * mch := by rw [h2]
  have hh : 1 ≤ h := by
    by_contra hh0
    have hz : h = 0 := by omega
    subst hz
    rw [Nat.div_eq_of_lt (by omega)] at hq
    omega
  rw [← hq1] at hd
  generalize hA : ((h + mch - 1) / mch - 1) * mch = A at hd ⊢
  omega

lemma print_bitmap_spec (s : PrinterState) (t : ℚ) (w h : Nat)
    (bitmap : Nat → Nat) (laa : Bool) (hs : s.write_to_stdout = false) :
    (print_bitmap s t w h bitmap laa).out = bitmap_claim_out bitmap w h laa ∧
      (print_bitmap s t w h bitmap laa).sched = bitmap_claim_sched s h laa := by
  have hm : 0 < (if laa then 1 else 255) := by cases laa <;> simp
  have hclip : (if (w + 7) / 8 ≥ 48 then 48 else (w + 7) / 8) =
      min ((w + 7) / 8) 48 := by
    rw [Nat.min_def]
    split_ifs <;> omega
  have hcl : min ((w + 7) / 8) 48 ≤ (w + 7) / 8 := Nat.min_le_left _ _
  have hbound : 1 ≤ (h + (if laa then 1 else 255) - 1) / (if laa then 1 else 255) →
      0 + ((h + (if laa then 1 else 255) - 1) / (if laa then 1 else 255) - 1) *
        (if laa then 1 else 255) < h := by
    intro hq
    rw [Nat.zero_add]
    exact ceil_div_bound h _ hm hq
  have hgo := print_bitmap_go_eq bitmap ((w + 7) / 8) (min ((w + 7) / 8) 48)
    (if laa then 1 else 255) h hcl
    ((h + (if laa then 1 else 255) - 1) / (if laa then 1 else 255)) 0 s t hs hbound
  rw [Nat.zero_mul] at hgo
  unfold print_bitmap bitmap_claim_out bitmap_claim_sched pyRange
  dsimp only
  rw [hclip]
  exact hgo

/-- C5: `print_bitmap` transmits per row exactly `min (ceil (w/8)) 48` data
    bytes, skipping (not buffering) row bytes beyond the 48th; rows are sent
    in `ceil (h / 255)` chunks of at most 255 rows (1 row per chunk with the
    line-at-a-time flag), each chunk prefixed by the four header bytes
    `18 42 chunkHeight clippedRowBytes`, and each chunk schedules the
    header's byte time followed by `chunkHeight * dotPrintTime`; in
    particular for `w = 400, h = 10` exactly 48 of the 50 bytes of each row
    are transmitted in a single chunk whose header carries 10 and 48. -/
theorem c5_print_bitmap_stream (s : PrinterState) (t : ℚ) (w h : Nat)
    (bitmap : Nat → Nat) (laa : Bool) (hs : s.write_to_stdout = false) :
    ((print_bitmap s t w h bitmap laa).out = bitmap_claim_out bitmap w h laa ∧
      (print_bitmap s t w h bitmap laa).sched = bitmap_claim_sched s h laa) ∧
    (print_bitmap s t 400 10 bitmap false).out =
      [18, 42, 10, 48] ++ (List.range 10).flatMap fun r =>
        (List.range 48).map fun x => bitmap (r * 50 + x) := by
  refine ⟨print_bitmap_spec s t w h bitmap laa hs, ?_⟩
  rw [(print_bitmap_spec s t 400 10 bitmap false hs).1]
  unfold bitmap_claim_out pyRange
  norm_num [List.range'_one]

/-- Witness for C5 at a concrete state and bitmap. -/
theorem c5_print_bitmap_stream_witness :
    initState.write_to_stdout = false ∧
      (print_bitmap initState 0 400 10 (fun i => i % 256) false).out =
        [18, 42, 10, 48] ++ (List.range 10).flatMap fun r =>
          (List.range 48).map fun x => (fun i => i % 256) (r * 50 + x) :=
  ⟨rfl, (c5_print_bitmap_stream initState 0 400 10 (fun i => i % 256) false
    rfl).2⟩
